import Mathlib

/-!
Verification of the `ethrpc-gateway` JSON-RPC middleware.

The gateway's dispatch router (`src/ethers/server.ts`), the Conflux
(epoch-chain) wallet wrapper (`src/lib/conflux/wrapper.ts`) and the Reef
(claim-chain) wallet wrapper are shallowly embedded below.  JavaScript's
dynamically typed values are modelled by the inductive type `JsVal`;
the builtins the source relies on (`JSON.stringify`, `JSON.parse`,
string coercion, truthiness) are modelled alongside.
-/

set_option autoImplicit false

/-- Model of a JavaScript runtime value as it appears in this program:
`undefined`, `null`, booleans, (integer) numbers, strings, arrays and
plain objects given by their ordered own-property list. -/
inductive JsVal where
  | undefined
  | null
  | bool (b : Bool)
  | num (n : Int)
  | str (s : String)
  | arr (elems : List JsVal)
  | obj (fields : List (String × JsVal))
deriving Repr

mutual
/-- Decidable equality on `JsVal` (the derive handler does not support the
nested occurrence under `List`). -/
def decEqJsVal : (a b : JsVal) → Decidable (a = b)
  | .undefined, .undefined => isTrue rfl
  | .null, .null => isTrue rfl
  | .bool x, .bool y =>
    match decEq x y with
    | isTrue h => isTrue (h ▸ rfl)
    | isFalse h => isFalse (fun hh => h (JsVal.bool.inj hh))
  | .num x, .num y =>
    match decEq x y with
    | isTrue h => isTrue (h ▸ rfl)
    | isFalse h => isFalse (fun hh => h (JsVal.num.inj hh))
  | .str x, .str y =>
    match decEq x y with
    | isTrue h => isTrue (h ▸ rfl)
    | isFalse h => isFalse (fun hh => h (JsVal.str.inj hh))
  | .arr xs, .arr ys =>
    match decEqJsValList xs ys with
    | isTrue h => isTrue (h ▸ rfl)
    | isFalse h => isFalse (fun hh => h (JsVal.arr.inj hh))
  | .obj fs, .obj gs =>
    match decEqJsValFields fs gs with
    | isTrue h => isTrue (h ▸ rfl)
    | isFalse h => isFalse (fun hh => h (JsVal.obj.inj hh))
  | .undefined, .null => isFalse (fun h => JsVal.noConfusion h)
  | .undefined, .bool _ => isFalse (fun h => JsVal.noConfusion h)
  | .undefined, .num _ => isFalse (fun h => JsVal.noConfusion h)
  | .undefined, .str _ => isFalse (fun h => JsVal.noConfusion h)
  | .undefined, .arr _ => isFalse (fun h => JsVal.noConfusion h)
  | .undefined, .obj _ => isFalse (fun h => JsVal.noConfusion h)
  | .null, .undefined => isFalse (fun h => JsVal.noConfusion h)
  | .null, .bool _ => isFalse (fun h => JsVal.noConfusion h)
  | .null, .num _ => isFalse (fun h => JsVal.noConfusion h)
  | .null, .str _ => isFalse (fun h => JsVal.noConfusion h)
  | .null, .arr _ => isFalse (fun h => JsVal.noConfusion h)
  | .null, .obj _ => isFalse (fun h => JsVal.noConfusion h)
  | .bool _, .undefined => isFalse (fun h => JsVal.noConfusion h)
  | .bool _, .null => isFalse (fun h => JsVal.noConfusion h)
  | .bool _, .num _ => isFalse (fun h => JsVal.noConfusion h)
  | .bool _, .str _ => isFalse (fun h => JsVal.noConfusion h)
  | .bool _, .arr _ => isFalse (fun h => JsVal.noConfusion h)
  | .bool _, .obj _ => isFalse (fun h => JsVal.noConfusion h)
  | .num _, .undefined => isFalse (fun h => JsVal.noConfusion h)
  | .num _, .null => isFalse (fun h => JsVal.noConfusion h)
  | .num _, .bool _ => isFalse (fun h => JsVal.noConfusion h)
  | .num _, .str _ => isFalse (fun h => JsVal.noConfusion h)
  | .num _, .arr _ => isFalse (fun h => JsVal.noConfusion h)
  | .num _, .obj _ => isFalse (fun h => JsVal.noConfusion h)
  | .str _, .undefined => isFalse (fun h => JsVal.noConfusion h)
  | .str _, .null => isFalse (fun h => JsVal.noConfusion h)
  | .str _, .bool _ => isFalse (fun h => JsVal.noConfusion h)
  | .str _, .num _ => isFalse (fun h => JsVal.noConfusion h)
  | .str _, .arr _ => isFalse (fun h => JsVal.noConfusion h)
  | .str _, .obj _ => isFalse (fun h => JsVal.noConfusion h)
  | .arr _, .undefined => isFalse (fun h => JsVal.noConfusion h)
  | .arr _, .null => isFalse (fun h => JsVal.noConfusion h)
  | .arr _, .bool _ => isFalse (fun h => JsVal.noConfusion h)
  | .arr _, .num _ => isFalse (fun h => JsVal.noConfusion h)
  | .arr _, .str _ => isFalse (fun h => JsVal.noConfusion h)
  | .arr _, .obj _ => isFalse (fun h => JsVal.noConfusion h)
  | .obj _, .undefined => isFalse (fun h => JsVal.noConfusion h)
  | .obj _, .null => isFalse (fun h => JsVal.noConfusion h)
  | .obj _, .bool _ => isFalse (fun h => JsVal.noConfusion h)
  | .obj _, .num _ => isFalse (fun h => JsVal.noConfusion h)
  | .obj _, .str _ => isFalse (fun h => JsVal.noConfusion h)
  | .obj _, .arr _ => isFalse (fun h => JsVal.noConfusion h)

/-- Decidable equality on lists of `JsVal`. -/
def decEqJsValList : (xs ys : List JsVal) → Decidable (xs = ys)
  | [], [] => isTrue rfl
  | [], _ :: _ => isFalse (fun h => List.noConfusion h)
  | _ :: _, [] => isFalse (fun h => List.noConfusion h)
  | x :: xs, y :: ys =>
    match decEqJsVal x y with
    | isFalse h => isFalse (fun hh => h (List.cons.inj hh).1)
    | isTrue h1 =>
      match decEqJsValList xs ys with
      | isTrue h2 => isTrue (h1 ▸ h2 ▸ rfl)
      | isFalse h => isFalse (fun hh => h (List.cons.inj hh).2)

/-- Decidable equality on object field lists. -/
def decEqJsValFields : (fs gs : List (String × JsVal)) → Decidable (fs = gs)
  | [], [] => isTrue rfl
  | [], _ :: _ => isFalse (fun h => List.noConfusion h)
  | _ :: _, [] => isFalse (fun h => List.noConfusion h)
  | (k, v) :: fs, (l, w) :: gs =>
    match decEq k l with
    | isFalse h =>
      isFalse (fun hh => h (congrArg Prod.fst (List.cons.inj hh).1))
    | isTrue h1 =>
      match decEqJsVal v w with
      | isFalse h =>
        isFalse (fun hh => h (congrArg Prod.snd (List.cons.inj hh).1))
      | isTrue h2 =>
        match decEqJsValFields fs gs with
        | isTrue h3 => isTrue (h1 ▸ h2 ▸ h3 ▸ rfl)
        | isFalse h => isFalse (fun hh => h (List.cons.inj hh).2)
end

instance : DecidableEq JsVal := decEqJsVal

/-- First field of an object field list bearing the given key, `undefined`
when absent (JavaScript property lookup on a plain object). -/
def getField : List (String × JsVal) → String → JsVal
  | [], _ => .undefined
  | (k', v) :: rest, k => if k' = k then v else getField rest k

/-- JavaScript property access `v[k]`: field lookup on objects, `undefined`
on every other value.  (Access on `null`/`undefined` throws in JS; the
call sites that matter model that case explicitly.) -/
def JsVal.get : JsVal → String → JsVal
  | .obj fields, k => getField fields k
  | _, _ => .undefined

/-- Whether an object field list has an entry with the given key. -/
def hasKey : List (String × JsVal) → String → Bool
  | [], _ => false
  | (k', _) :: rest, k => k' = k || hasKey rest k

/-- JavaScript `k in v` restricted to own properties of plain objects. -/
def JsVal.hasOwn : JsVal → String → Bool
  | .obj fields, k => hasKey fields k
  | _, _ => false

/-- JavaScript truthiness. -/
def truthy : JsVal → Bool
  | .undefined => false
  | .null => false
  | .bool b => b
  | .num n => n != 0
  | .str s => s != ""
  | .arr _ => true
  | .obj _ => true

mutual
/-- JavaScript string coercion (`String(v)`, `v.toString()`, template
literals): objects render as `[object Object]`, arrays join their
elements with commas. -/
def jsToString : JsVal → String
  | .undefined => "undefined"
  | .null => "null"
  | .bool b => if b then "true" else "false"
  | .num n => toString n
  | .str s => s
  | .arr xs => arrToString xs
  | .obj _ => "[object Object]"

/-- `Array.prototype.toString`: elements joined by commas. -/
def arrToString : List JsVal → String
  | [] => ""
  | x :: xs => elemToString x ++ arrToStringRest xs

/-- Trailing elements, each preceded by the comma separator. -/
def arrToStringRest : List JsVal → String
  | [] => ""
  | x :: xs => "," ++ elemToString x ++ arrToStringRest xs

/-- Array element coercion: `null` and `undefined` render empty. -/
def elemToString : JsVal → String
  | .undefined => ""
  | .null => ""
  | v => jsToString v
end

/-- JSON string escaping for one character. -/
def escChar (c : Char) : String :=
  if c = '"' then "\\\""
  else if c = '\\' then "\\\\"
  else if c = '\n' then "\\n"
  else if c = '\t' then "\\t"
  else if c = '\r' then "\\r"
  else String.singleton c

/-- JSON quoting of a string literal. -/
def quoteJson (s : String) : String :=
  "\"" ++ String.join (s.data.map escChar) ++ "\""

/-- ASCII lowering of one character (the addresses this program compares
are hex strings, for which `String.prototype.toLowerCase` is exactly
ASCII lowering). -/
def lowerChar (c : Char) : Char :=
  if 'A' ≤ c && c ≤ 'Z' then Char.ofNat (c.toNat + 32) else c

/-- `String.prototype.toLowerCase` on the ASCII strings this program
compares. -/
def jsToLowerCase (s : String) : String :=
  String.mk (s.data.map lowerChar)

mutual
/-- `JSON.stringify`: `none` models the JavaScript result `undefined`
(top-level `undefined` is not serializable). -/
def jsonStr : JsVal → Option String
  | .undefined => none
  | .null => some "null"
  | .bool b => some (if b then "true" else "false")
  | .num n => some (toString n)
  | .str s => some (quoteJson s)
  | .arr xs => some ("[" ++ String.intercalate "," (jsonStrArr xs) ++ "]")
  | .obj fs => some ("\x7b" ++ String.intercalate "," (jsonStrObj fs) ++ "\x7d")

/-- Array elements: `undefined` serializes as `null`. -/
def jsonStrArr : List JsVal → List String
  | [] => []
  | x :: xs => ((jsonStr x).getD "null") :: jsonStrArr xs

/-- Object fields: entries with `undefined` values are dropped. -/
def jsonStrObj : List (String × JsVal) → List String
  | [] => []
  | (k, v) :: fs =>
    match jsonStr v with
    | some s => (quoteJson k ++ ":" ++ s) :: jsonStrObj fs
    | none => jsonStrObj fs
end

mutual
/-- `JSON.parse (JSON.stringify v)` for a serializable `v`: object fields
with `undefined` values are dropped and `undefined` array elements become
`null`; everything else survives the round trip unchanged. -/
def jsonRoundtrip : JsVal → JsVal
  | .arr xs => .arr (roundtripArr xs)
  | .obj fs => .obj (roundtripObj fs)
  | v => v

/-- Round trip of array elements. -/
def roundtripArr : List JsVal → List JsVal
  | [] => []
  | .undefined :: xs => .null :: roundtripArr xs
  | x :: xs => jsonRoundtrip x :: roundtripArr xs

/-- Round trip of object fields. -/
def roundtripObj : List (String × JsVal) → List (String × JsVal)
  | [] => []
  | (_, .undefined) :: fs => roundtripObj fs
  | (k, v) :: fs => (k, jsonRoundtrip v) :: roundtripObj fs
end

/-- JSON whitespace. -/
def isJsonWs (c : Char) : Bool :=
  c = ' ' || c = '\n' || c = '\t' || c = '\r'

/-- Skip leading JSON whitespace. -/
def skipWs : List Char → List Char
  | [] => []
  | c :: cs => if isJsonWs c then skipWs cs else c :: cs

/-- Value of a hexadecimal digit. -/
def hexDigitVal (c : Char) : Option Nat :=
  if '0' ≤ c && c ≤ '9' then some (c.toNat - 48)
  else if 'a' ≤ c && c ≤ 'f' then some (c.toNat - 87)
  else if 'A' ≤ c && c ≤ 'F' then some (c.toNat - 55)
  else none

/-- Single-character JSON escape sequences. -/
def unescapeChar (e : Char) : Option Char :=
  if e = '"' then some '"'
  else if e = '\\' then some '\\'
  else if e = '/' then some '/'
  else if e = 'n' then some '\n'
  else if e = 't' then some '\t'
  else if e = 'r' then some '\r'
  else if e = 'b' then some (Char.ofNat 8)
  else if e = 'f' then some (Char.ofNat 12)
  else none

/-- Body of a JSON string literal, after the opening quote; returns the
decoded string and the input past the closing quote. -/
def parseStrChars : List Char → Option (String × List Char)
  | [] => none
  | c :: cs =>
    if c = '"' then some ("", cs)
    else if c = '\\' then
      match cs with
      | [] => none
      | e :: cs' =>
        if e = 'u' then
          match cs' with
          | a :: b :: c2 :: d :: rest =>
            match hexDigitVal a, hexDigitVal b, hexDigitVal c2, hexDigitVal d with
            | some ha, some hb, some hc, some hd =>
              (parseStrChars rest).map fun (s, r) =>
                (String.singleton (Char.ofNat (((ha * 16 + hb) * 16 + hc) * 16 + hd)) ++ s, r)
            | _, _, _, _ => none
          | _ => none
        else
          match unescapeChar e with
          | some d => (parseStrChars cs').map fun (s, r) => (String.singleton d ++ s, r)
          | none => none
    else
      (parseStrChars cs).map fun (s, r) => (String.singleton c ++ s, r)

/-- Greedily consume decimal digits, extending the accumulator. -/
def digitsLoop (acc : Nat) : List Char → Nat × List Char
  | [] => (acc, [])
  | c :: cs => if c.isDigit then digitsLoop (acc * 10 + (c.toNat - 48)) cs else (acc, c :: cs)

mutual
/-- Fuel-driven JSON value recogniser (integer numbers only, which covers
every JSON body this program builds). -/
def parseVal : Nat → List Char → Option (JsVal × List Char)
  | 0, _ => none
  | Nat.succ fuel, input =>
    match skipWs input with
    | 'n' :: 'u' :: 'l' :: 'l' :: cs => some (.null, cs)
    | 't' :: 'r' :: 'u' :: 'e' :: cs => some (.bool true, cs)
    | 'f' :: 'a' :: 'l' :: 's' :: 'e' :: cs => some (.bool false, cs)
    | '"' :: cs => (parseStrChars cs).map fun (s, r) => (.str s, r)
    | '[' :: cs =>
      (match skipWs cs with
       | ']' :: rest => some (.arr [], rest)
       | cs' =>
         match parseVal fuel cs' with
         | some (v, rest) =>
           (parseArrTail fuel rest).map fun (vs, r) => (.arr (v :: vs), r)
         | none => none)
    | '\x7b' :: cs =>
      (match skipWs cs with
       | '\x7d' :: rest => some (.obj [], rest)
       | cs' =>
         match parseMember fuel cs' with
         | some (kv, rest) =>
           (parseObjTail fuel rest).map fun (kvs, r) => (.obj (kv :: kvs), r)
         | none => none)
    | '-' :: c :: cs =>
      if c.isDigit then
        let (n, r) := digitsLoop (c.toNat - 48) cs
        some (.num (-(n : Int)), r)
      else none
    | c :: cs =>
      if c.isDigit then
        let (n, r) := digitsLoop (c.toNat - 48) cs
        some (.num (n : Int), r)
      else none
    | [] => none

/-- Items of an array after the first value: `,` separated, `]` terminated. -/
def parseArrTail : Nat → List Char → Option (List JsVal × List Char)
  | 0, _ => none
  | Nat.succ fuel, input =>
    match skipWs input with
    | ']' :: rest => some ([], rest)
    | ',' :: cs =>
      (match parseVal fuel cs with
       | some (v, rest) =>
         (parseArrTail fuel rest).map fun (vs, r) => (v :: vs, r)
       | none => none)
    | _ => none

/-- One `"key": value` object member. -/
def parseMember : Nat → List Char → Option ((String × JsVal) × List Char)
  | 0, _ => none
  | Nat.succ fuel, input =>
    match skipWs input with
    | '"' :: cs =>
      (match parseStrChars cs with
       | some (k, rest) =>
         (match skipWs rest with
          | ':' :: cs' =>
            (parseVal fuel cs').map fun (v, r) => ((k, v), r)
          | _ => none)
       | none => none)
    | _ => none

/-- Members of an object after the first one. -/
def parseObjTail : Nat → List Char → Option (List (String × JsVal) × List Char)
  | 0, _ => none
  | Nat.succ fuel, input =>
    match skipWs input with
    | '\x7d' :: rest => some ([], rest)
    | ',' :: cs =>
      (match parseMember fuel cs with
       | some (kv, rest) =>
         (parseObjTail fuel rest).map fun (kvs, r) => (kv :: kvs, r)
       | none => none)
    | _ => none
end

/-- `JSON.parse`: `none` models a thrown `SyntaxError`. -/
def jsonParse (s : String) : Option JsVal :=
  match parseVal (s.length + 1) s.data with
  | some (v, rest) => if skipWs rest = [] then some v else none
  | none => none

/-- `BigInt.prototype.toString(16)` / `Number.prototype.toString(16)` for
the integers this program renders: lowercase hex digits, `-` sign. -/
def toHex (n : Int) : String :=
  if n < 0 then "-" ++ String.mk (Nat.toDigits 16 n.natAbs)
  else String.mk (Nat.toDigits 16 n.toNat)

/-!
Dispatch router and error normaliser, from
`WalletMiddlewareServer.initialize` in `src/ethers/server.ts`.
-/

/-- Parsed inbound JSON-RPC request (`req.body`). `params = none` models an
absent (or `null`) `params`, which the handler branch replaces by `[]`. -/
structure RpcRequest where
  id : JsVal
  jsonrpc : JsVal
  method : String
  params : Option (List JsVal)

/-- Result of awaiting a handler or the upstream provider: either a value
or a thrown one. -/
inductive Outcome where
  | success (v : JsVal)
  | thrown (e : JsVal)

/-- Own keys of the `handlers` object literal. -/
def interceptedMethods : List String :=
  ["eth_accounts", "eth_sendTransaction", "eth_sign"]

/-- Properties the `handlers` object literal inherits from
`Object.prototype`; the `in` operator consults the prototype chain, so
these names also test positive in `request.method in handlers`. -/
def objectPrototypeKeys : List String :=
  ["constructor", "hasOwnProperty", "isPrototypeOf", "propertyIsEnumerable",
   "toLocaleString", "toString", "valueOf", "__defineGetter__",
   "__defineSetter__", "__lookupGetter__", "__lookupSetter__", "__proto__"]

/-- Routing decision of the `request.method in handlers` test. -/
inductive Routed where
  | handled (method : String) (args : List JsVal)
  | protoInvoked (method : String)
  | forwarded (method : String) (params : Option (List JsVal))
deriving Repr

/-- Router: an intercepted method's bound handler is called with
`...(request.params || []), socket`; a name found only on
`Object.prototype` picks up the inherited member; everything else is
forwarded via `provider.send(request.method, request.params)`. -/
def route (req : RpcRequest) (socket : JsVal) : Routed :=
  if req.method ∈ interceptedMethods then
    .handled req.method (req.params.getD [] ++ [socket])
  else if req.method ∈ objectPrototypeKeys then
    .protoInvoked req.method
  else
    .forwarded req.method req.params

/-- The literal string assigned to `response.error` when the error body
fails to parse as JSON. -/
def fallbackInvalidJson : JsVal :=
  .str "\x7b \"code\": -32700, \"message\": \"Invalid JSON response\" \x7d"

/-- `JSON.parse(typeof body !== 'string' ? JSON.stringify(body) : body)`:
string bodies are parsed; any other body goes through a
stringify-then-parse round trip (`jsonRoundtrip`); `undefined` makes
`JSON.parse` throw. -/
def parseBody : JsVal → Option JsVal
  | .str s => jsonParse s
  | .undefined => none
  | v => some (jsonRoundtrip v)

/-- The `catch (exception)` block of the router, producing the value of
the response's `error` field.  `none` models the block itself throwing
(property access on a thrown `null`/`undefined`). -/
def normalizeError (e : JsVal) : Option JsVal :=
  match e with
  | .undefined => none
  | .null => none
  | e =>
    let e' := if truthy (e.get "code") then e else
      .obj [("reason", .str (jsToString e)),
            ("body", .obj [("error", .obj [
              ("code", .num (-32015)),
              ("message", .str (if truthy (e.get "data") then "Execution error"
                                else (jsonStr e).getD "undefined")),
              ("data", e.get "data")])])]
    let message : JsVal :=
      let a := e'.get "reason"
      if truthy a then a else
        let b := let err := e'.get "error"
                 if truthy err then err.get "reason" else err
        if truthy b then b else
          if truthy e' then e' else .str "null exception"
    let body : JsVal :=
      let b0 := e'.get "body"
      if truthy b0 then b0 else
        let errField := e'.get "error"
        if truthy errField && truthy (errField.get "body") then errField.get "body"
        else .obj [("error", .obj [
               ("code", if truthy (e'.get "code") then e'.get "code" else .num (-32099)),
               ("message", .str ("\"" ++ jsToString message ++ "\"")),
               ("data", e'.get "data")])]
    match parseBody body with
    | some .null => some fallbackInvalidJson
    | some parsed => some (parsed.get "error")
    | none => some fallbackInvalidJson

/-- Assemble the JSON-RPC response object `{...header, result}` resp.
`{...header, error}`; `none` models the catch block throwing. -/
def buildResponse (req : RpcRequest) (o : Outcome) : Option JsVal :=
  match o with
  | .success v =>
    some (.obj [("jsonrpc", req.jsonrpc), ("id", req.id), ("result", v)])
  | .thrown e =>
    (normalizeError e).map fun errv =>
      .obj [("jsonrpc", req.jsonrpc), ("id", req.id), ("error", errv)]

/-- The response as serialized by `res.json(response)`: own properties
with `undefined` values disappear from the wire object. -/
def wireResponse (req : RpcRequest) (o : Outcome) : Option JsVal :=
  (buildResponse req o).map jsonRoundtrip

/-- Whole dispatch: route, run the chosen callee (each modelled as an
oracle for its outcome), wrap the envelope. -/
def dispatch (req : RpcRequest) (socket : JsVal)
    (handlerOutcome : String → List JsVal → Outcome)
    (protoOutcome : String → Outcome)
    (upstream : String → Option (List JsVal) → Outcome) : Option JsVal :=
  buildResponse req
    (match route req socket with
     | .handled m args => handlerOutcome m args
     | .protoInvoked m => protoOutcome m
     | .forwarded m ps => upstream m ps)

/-!
Epoch-chain (Conflux) wallet wrapper, from `src/lib/conflux/wrapper.ts`.
-/

namespace Cfx

/-- The thrown `NoSigningKey` value: shared verbatim by
`Cfx.processEthSignMessage` and `Reef.getSignerFromEvmAddress`. -/
def noSigningKeyError (address : String) : JsVal :=
  let reason := "No private key available as to sign messages from \x27" ++ address ++ "\x27"
  .obj [("reason", .str reason),
        ("body", .obj [("error", .obj [("code", .num (-32000)), ("message", .str reason)])])]

/-- Mutable state of the Conflux `WalletWrapper`.  `accounts` is the
ordered address list held by `conflux.wallet`; `defaultGasPrice` is the
SDK-level `conflux.defaultGasPrice` used both as the gas-price ceiling
and as the non-estimated default. -/
structure State where
  networkId : Int
  interleaveEpochs : Int
  lastKnownEpochNumber : Int
  estimateGasPrice : Bool
  alwaysSynced : Bool
  accounts : List String
  defaultGasPrice : Int

/-- Classification a `checkRollbacks` observation logs. -/
inductive RollbackClass where
  | noRollback
  | harmless
  | threatening
deriving Repr, DecidableEq

/-- The branch structure of `checkRollbacks`: a decrease is threatening
iff it reaches back at least `interleaveEpochs` epochs. -/
def classifyRollback (lastKnown interleave epoch : Int) : RollbackClass :=
  if epoch < lastKnown then
    if epoch ≤ lastKnown - interleave then .threatening else .harmless
  else .noRollback

/-- `checkRollbacks`: classify (for logging only), unconditionally record
the observed epoch, and return it.  `epoch` is the value fetched from
`conflux.getEpochNumber(this.epochLabel)`. -/
def checkRollbacks (st : State) (epoch : Int) : Int × RollbackClass × State :=
  (epoch,
   classifyRollback st.lastKnownEpochNumber st.interleaveEpochs epoch,
   { st with lastKnownEpochNumber := epoch })

/-- `getAccounts`: the addresses of the wallet, in insertion order. -/
def getAccounts (st : State) : List String :=
  st.accounts

/-- `getAccount`: the body runs `this.conflux.getAccount(address)` but has
no `return` statement, so the call evaluates to `undefined`. -/
def getAccount (_st : State) (_address : String) : JsVal :=
  .undefined

/-- `createEthBlockFilter` resolves to the constant `'0x1'`. -/
def createEthBlockFilter : String := "0x1"

/-- `getEthFilterChanges`: the constant block-filter id answers with the
current `latest_state` epoch number; any other id throws. -/
def getEthFilterChanges (latestEpoch : Int) (id : String) : Except JsVal JsVal :=
  if id = "0x1" then .ok (.num latestEpoch)
  else
    let reason := "Unsupported filter " ++ id
    .error (.obj [("reason", .str reason),
                  ("body", .obj [("code", .num (-32500)), ("message", .str reason)])])

/-- `processEthSignMessage`: a known address signs via
`this.getAccount(address)?.signMessage(message)` (the optional chain
short-circuits on `undefined`/`null`); an unknown address throws
`NoSigningKey`.  `sign` is an oracle for `signMessage`. -/
def processEthSignMessage (st : State) (sign : JsVal → JsVal → JsVal)
    (address : String) (message : JsVal) : Except JsVal JsVal :=
  if address ∈ getAccounts st then
    .ok (match getAccount st address with
         | .undefined => .undefined
         | .null => .undefined
         | acct => sign acct message)
  else
    .error (noSigningKeyError address)

/-- The thrown `GasPriceExceeded` value. -/
def gasPriceExceededError (p ceiling : Int) : JsVal :=
  let reason := "Estimated gas price exceeds threshold (" ++ toString p
    ++ " > " ++ toString ceiling ++ ")"
  .obj [("reason", .str reason),
        ("body", .obj [("error", .obj [("code", .num (-32099)), ("message", .str reason)])])]

/-- Caller-supplied transaction parameters (dynamically typed). -/
structure TxParams where
  «from» : JsVal
  «to» : JsVal
  value : JsVal
  data : JsVal
  gas : JsVal
  gasPrice : JsVal

/-- Awaited backend answers consumed by `processTransaction`:
`conflux.getGasPrice()`, `conflux.getEpochNumber()`,
`parseInt(conflux.getNextNonce(from))`, and
`conflux.estimateGasAndCollateral` as `(storageCollateralized, gasLimit)`
with `none` when the estimation call throws. -/
structure Env where
  oracleGasPrice : Int
  epochNumber : Int
  nextNonce : Int
  estimation : Option (Int × Int)

/-- The object handed to `conflux.cfx.sendTransaction`. -/
structure Payload where
  «from» : JsVal
  «to» : JsVal
  gasPrice : JsVal
  value : JsVal
  data : JsVal
  nonce : String
  epochHeight : String
  chainId : String
  storageLimit : String
  gas : String

/-- How a `processTransaction` call ends: with the composed payload
submitted, with an explicitly thrown value, or with a native `TypeError`
(`to0x(undefined)`); the latter two submit nothing. -/
inductive TxResult where
  | submitted (payload : Payload)
  | thrownErr (e : JsVal)
  | crashed

/-- `value.toString(16)`: hex for numbers, identity for strings (the radix
argument is ignored), `none` models the `TypeError` on `null`/`undefined`. -/
def jsToStringRadix16 : JsVal → Option String
  | .num n => some (toHex n)
  | .str s => some s
  | .bool b => some (if b then "true" else "false")
  | .null => none
  | .undefined => none
  | v => some (jsToString v)

/-- The module-level helper `to0x`. -/
def to0x (v : JsVal) : Option String :=
  (jsToStringRadix16 v).map fun s => if s.startsWith "0x" then s else "0x" ++ s

/-- `processTransaction`: gas-price policy (oracle estimate checked
against the ceiling, then tenfolded by appending a decimal digit `0`
before hex encoding — `BigInt` of the decimal string with `0` appended is
exactly ten times the estimate), `from`/nonce/epoch defaults, cost
estimation with its catch-all fallback, and final payload composition. -/
def processTransaction (st : State) (env : Env) (params : TxParams) : TxResult :=
  let gasPriceRes : Except JsVal JsVal :=
    if st.estimateGasPrice then
      if env.oracleGasPrice > st.defaultGasPrice then
        .error (gasPriceExceededError env.oracleGasPrice st.defaultGasPrice)
      else
        .ok (.str ("0x" ++ toHex (env.oracleGasPrice * 10)))
    else
      .ok (if truthy params.gasPrice then params.gasPrice
           else .str ("0x" ++ toHex st.defaultGasPrice))
  match gasPriceRes with
  | .error e => .thrownErr e
  | .ok gasPrice =>
    let fromV : JsVal :=
      if truthy params.from then params.from
      else match st.accounts with
           | [] => .undefined
           | a :: _ => .str a
    let valueV : JsVal :=
      if truthy params.value then .str ((jsToStringRadix16 params.value).getD "")
      else .str "0x0"
    let dataV : JsVal := if truthy params.data then params.data else .null
    let (scV, glV) : JsVal × JsVal :=
      match env.estimation with
      | some (sc, gl) => (.num sc, .num gl)
      | none => (.num 0, params.gas)
    match to0x scV, to0x glV with
    | some storageLimit, some gas =>
      .submitted
        { «from» := fromV
          «to» := params.to
          gasPrice := gasPrice
          value := valueV
          data := dataV
          nonce := "0x" ++ toHex env.nextNonce
          epochHeight := "0x" ++ toHex (env.epochNumber - 1)
          chainId := "0x" ++ toHex st.networkId
          storageLimit := storageLimit
          gas := gas }
    | _, _ => .crashed

end Cfx

/-!
Claim-chain (Reef/Substrate) wallet wrapper, from the unnamed source file
(`WalletWrapper` over `@reef-defi/evm-provider`).
-/

namespace Reef

/-- State of the Reef `WalletWrapper` relevant to setup and signing:
`accounts` and `signers` are pushed pairwise in `setup` (a signer is
identified here by the EVM address its `getAddress()` yields). -/
structure State where
  accounts : List String
  signers : List String
  seedPhrase : String
  numAddresses : Nat

/-- Outcome of one setup iteration's external interactions
(`keyring.addFromUri`, `isClaimed`/`claimDefaultAccount`, `getAddress`):
either the derived EVM address, or a thrown failure somewhere in the
iteration (before the `accounts`/`signers` pushes). -/
inductive SetupStep where
  | ok (address : String)
  | fail

/-- The `for (let j = 0; ...)` loop of `setup`, iterating `remaining` more
indices starting at `j`.  A failing iteration aborts the whole `setup`
with the state accumulated so far (there is no `try`/`finally`). -/
def setupLoop (env : Nat → SetupStep) (j : Nat) : Nat → State → Bool × State
  | 0, st => (true, st)
  | Nat.succ remaining, st =>
    match env j with
    | .fail => (false, st)
    | .ok addr =>
      setupLoop env (j + 1) remaining
        { st with accounts := st.accounts ++ [addr], signers := st.signers ++ [addr] }

/-- `setup`: run the derivation/claim loop over `numAddresses` indices;
only after the loop completes does `this.seedPhrase = ''` run. -/
def setup (env : Nat → SetupStep) (st : State) : Bool × State :=
  match setupLoop env 0 st.numAddresses st with
  | (true, st') => (true, { st' with seedPhrase := "" })
  | (false, st') => (false, st')

/-- `getAccounts`: the account list as populated by `setup`. -/
def getAccounts (st : State) : List String :=
  st.accounts

/-- `getSignerFromEvmAddress`: scan the signers comparing
`getAddress().toLowerCase()` with the queried address lowercased; throw
`NoSigningKey` when no signer matches. -/
def getSignerFromEvmAddress (signerAddrs : List String) (evmAddress : String) :
    Except JsVal String :=
  match signerAddrs.find? (fun a => jsToLowerCase a == jsToLowerCase evmAddress) with
  | some a => .ok a
  | none => .error (Cfx.noSigningKeyError evmAddress)

/-- Inbound `TransactionParams`. -/
structure TxParams where
  «from» : Option String
  «to» : Option String
  value : Option JsVal
  data : Option JsVal
  nonce : Option JsVal
  gas : Option JsVal
  gasPrice : Option JsVal

/-- The `ethers` `TransactionRequest` assembled by `composeTransaction`. -/
structure Tx where
  «from» : Option String
  «to» : Option String
  value : Option JsVal
  data : Option JsVal
  nonce : Option JsVal
  gasLimit : Option JsVal
  gasPrice : Option JsVal

/-- `composeTransaction`: a pure field-for-field copy (`gas` feeds
`gasLimit`); no estimation happens on this backend. -/
def composeTransaction (params : TxParams) : Tx :=
  { «from» := params.from
    «to» := params.to
    value := params.value
    data := params.data
    nonce := params.nonce
    gasLimit := params.gas
    gasPrice := params.gasPrice }

/-- `sendTransaction`: compose, look the signer up by `tx.from || ''`,
rewrite `tx.from` to the signer's address, fill a missing nonce from
`signer.getTransactionCount()`, and submit.  `nextNonce` and `submit` are
oracles for those two awaited externals; the submitted hash is
`res.hash`. -/
def sendTransaction (st : State) (nextNonce : String → JsVal)
    (submit : Tx → String) (params : TxParams) : Except JsVal JsVal :=
  let tx := composeTransaction params
  match getSignerFromEvmAddress st.signers (tx.from.getD "") with
  | .error e => .error e
  | .ok signerAddr =>
    let tx :=
      { tx with
        «from» := some signerAddr
        nonce := match tx.nonce with
                 | none => some (nextNonce signerAddr)
                 | some n => if truthy n then some n else some (nextNonce signerAddr) }
    .ok (.str (submit tx))

/-- `mockCreateBlockFilter` resolves to the constant `'0x1'`. -/
def mockCreateBlockFilter : String := "0x1"

/-- `mockGetFilterChanges`: for every filter id, resolve to the singleton
array of the provider's current block number — no id check, no failure. -/
def mockGetFilterChanges (blockNumber : Int) (_id : String) : JsVal :=
  .arr [.num blockNumber]

/-- `getSyncingStatus` on this backend is the constant `false`. -/
def getSyncingStatus : JsVal :=
  .bool false

end Reef

/-!
Helper lemmas shared by the claim theorems.
-/

/-- Key presence after the serialisation round trip: a key survives iff
some entry bears it with a defined value. -/
theorem hasKey_roundtripObj (fs : List (String × JsVal)) (k : String) :
    hasKey (roundtripObj fs) k =
      fs.any (fun p => decide (p.1 = k) && !(decide (p.2 = JsVal.undefined))) := by
  induction fs with
  | nil => rfl
  | cons head tail ih =>
    obtain ⟨k', v⟩ := head
    cases v <;> simp [roundtripObj, hasKey, ih]

/-- The error normaliser on a thrown object with a falsy `code`: the
rewrap branch produces a `-32015` execution error whose message is the
stringified exception (or the fixed text when `data` is present) and
whose `data` is the thrown value's own. -/
theorem normalizeError_rewrap_obj (fs : List (String × JsVal))
    (h : truthy (getField fs "code") = false) :
    normalizeError (.obj fs) =
      some (.obj (("code", JsVal.num (-32015)) ::
        ("message", JsVal.str (if truthy (getField fs "data") then "Execution error"
                               else (jsonStr (.obj fs)).getD "undefined")) ::
        (match getField fs "data" with
         | .undefined => []
         | d => [("data", jsonRoundtrip d)]))) := by
  cases hd : getField fs "data" <;>
    · simp only [normalizeError, JsVal.get, h, hd]
      simp [truthy, parseBody, jsonRoundtrip, roundtripObj, getField, jsToString]

/-!
Claim theorems.
-/

/-- C4: on each rollback check with observed epoch `e`, when
`e < lastKnownEpoch` the observation is threatening exactly when
`e ≤ lastKnownEpoch - interleaveWindow` and harmless otherwise;
`lastKnownEpoch` is unconditionally set to `e` and the call always
returns (the observed epoch). -/
theorem c4_rollback_classification (st : Cfx.State) (epoch : Int) :
    (Cfx.checkRollbacks st epoch).1 = epoch
    ∧ (Cfx.checkRollbacks st epoch).2.2.lastKnownEpochNumber = epoch
    ∧ (epoch < st.lastKnownEpochNumber →
        (((Cfx.checkRollbacks st epoch).2.1 = .threatening) ↔
          epoch ≤ st.lastKnownEpochNumber - st.interleaveEpochs)
        ∧ (((Cfx.checkRollbacks st epoch).2.1 = .harmless) ↔
          ¬ epoch ≤ st.lastKnownEpochNumber - st.interleaveEpochs)) := by
  refine ⟨rfl, rfl, fun hlt => ?_⟩
  unfold Cfx.checkRollbacks Cfx.classifyRollback
  rw [if_pos hlt]
  by_cases hle : epoch ≤ st.lastKnownEpochNumber - st.interleaveEpochs
  · simp [hle]
  · simp [hle]

-- Witness for C4, at the spec's own example: lastKnownEpoch = 100,
-- interleaveWindow = 5; epoch 94 is threatening, epoch 96 is harmless,
-- and lastKnownEpoch becomes the observed value.
theorem c4_rollback_classification_witness :
    (Cfx.checkRollbacks ⟨1030, 5, 100, false, false, [], 0⟩ 94).2.1 =
      Cfx.RollbackClass.threatening
    ∧ (Cfx.checkRollbacks ⟨1030, 5, 100, false, false, [], 0⟩ 96).2.1 =
      Cfx.RollbackClass.harmless
    ∧ (Cfx.checkRollbacks ⟨1030, 5, 100, false, false, [], 0⟩ 96).2.2.lastKnownEpochNumber = 96 := by
  refine ⟨?_, ?_, ?_⟩
  · exact ((c4_rollback_classification ⟨1030, 5, 100, false, false, [], 0⟩ 94).2.2
      (by decide)).1.mpr (by decide)
  · exact ((c4_rollback_classification ⟨1030, 5, 100, false, false, [], 0⟩ 96).2.2
      (by decide)).2.mpr (by decide)
  · exact (c4_rollback_classification ⟨1030, 5, 100, false, false, [], 0⟩ 96).2.1

/-- C7 (amended): on the claim-chain backend, after a `setup` run that
completes successfully the raw seed phrase is discarded from the
wrapper's state; a `setup` run aborted by a thrown failure keeps it. -/
theorem c7_seed_phrase_cleared (env : Nat → Reef.SetupStep) (st : Reef.State)
    (h : (Reef.setup env st).1 = true) :
    (Reef.setup env st).2.seedPhrase = "" := by
  unfold Reef.setup at h ⊢
  rcases hls : Reef.setupLoop env 0 st.numAddresses st with ⟨b, st'⟩
  rw [hls] at h
  cases b
  · exact Bool.noConfusion h
  · rfl

-- Witness for C7: a two-address setup that succeeds ends with an empty
-- seed phrase.
theorem c7_seed_phrase_cleared_witness :
    ((Reef.setup (fun j => .ok (toString j)) ⟨[], [], "secret", 2⟩).1 = true)
    ∧ (Reef.setup (fun j => .ok (toString j)) ⟨[], [], "secret", 2⟩).2.seedPhrase = "" :=
  ⟨rfl, c7_seed_phrase_cleared _ _ rfl⟩

-- Counterexample for C7 as stated: when the claim interaction throws on
-- the first index, setup aborts and the seed phrase is still held.
theorem c7_seed_phrase_counterexample :
    (Reef.setup (fun _ => .fail) ⟨[], [], "secret seed", 1⟩).1 = false
    ∧ (Reef.setup (fun _ => .fail) ⟨[], [], "secret seed", 1⟩).2.seedPhrase = "secret seed"
    ∧ "secret seed" ≠ "" := by
  exact ⟨rfl, rfl, by decide⟩

/-- C8 (amended): both backends' `createBlockFilter` return the constant
id `'0x1'`; on the epoch-chain backend `getEthFilterChanges('0x1')`
returns the latest epoch number and any other id throws the typed
`UnsupportedFilter` failure (code -32500); on the claim-chain backend
`mockGetFilterChanges` never fails and returns the singleton array of the
latest block number for every id. -/
theorem c8_block_filters (latestEpoch blockNumber : Int) (id : String)
    (hne : id ≠ "0x1") :
    Cfx.createEthBlockFilter = "0x1"
    ∧ Reef.mockCreateBlockFilter = "0x1"
    ∧ Cfx.getEthFilterChanges latestEpoch "0x1" = .ok (.num latestEpoch)
    ∧ (∃ e, Cfx.getEthFilterChanges latestEpoch id = .error e
        ∧ (e.get "body").get "code" = .num (-32500))
    ∧ Reef.mockGetFilterChanges blockNumber id = .arr [.num blockNumber] := by
  refine ⟨rfl, rfl, rfl, ?_, rfl⟩
  unfold Cfx.getEthFilterChanges
  rw [if_neg hne]
  exact ⟨_, rfl, rfl⟩

-- Witness for C8 at the concrete unknown filter id "0xdead".
theorem c8_block_filters_witness :
    Cfx.getEthFilterChanges 12 "0x1" = .ok (.num 12)
    ∧ (∃ e, Cfx.getEthFilterChanges 12 "0xdead" = .error e
        ∧ (e.get "body").get "code" = .num (-32500))
    ∧ Reef.mockGetFilterChanges 12 "0xdead" = .arr [.num 12] := by
  have h := c8_block_filters 12 12 "0xdead" (by decide)
  exact ⟨h.2.2.1, h.2.2.2.1, h.2.2.2.2⟩

-- Counterexample for C8 as stated: on the claim-chain backend an id other
-- than the constant does not fail with UnsupportedFilter — it still
-- answers with the latest block number.
theorem c8_counterexample :
    Reef.mockGetFilterChanges 7 "0x2" = .arr [.num 7] ∧ "0x2" ≠ "0x1" :=
  ⟨rfl, by decide⟩

/-- C6: on the epoch-chain backend with gas-price estimation enabled,
`processTransaction` throws the typed `GasPriceExceeded` failure (and
submits nothing) whenever the oracle estimate exceeds the configured
ceiling, and with the estimate within the ceiling (and the cost
estimation answering) it proceeds to compose and submit the payload. -/
theorem c6_gas_price_ceiling (st : Cfx.State) (env : Cfx.Env)
    (params : Cfx.TxParams) (hEst : st.estimateGasPrice = true) :
    (st.defaultGasPrice < env.oracleGasPrice →
      Cfx.processTransaction st env params =
        .thrownErr (Cfx.gasPriceExceededError env.oracleGasPrice st.defaultGasPrice))
    ∧ (env.oracleGasPrice ≤ st.defaultGasPrice →
       ∀ sc gl : Int, env.estimation = some (sc, gl) →
         ∃ payload, Cfx.processTransaction st env params = .submitted payload) := by
  constructor
  · intro hgt
    unfold Cfx.processTransaction
    rw [hEst]
    simp [hgt]
  · intro hle sc gl hest
    unfold Cfx.processTransaction
    rw [hEst, hest]
    simp [not_lt.mpr hle, Cfx.to0x, Cfx.jsToStringRadix16]

-- Witness for C6: ceiling 5 rejects an oracle estimate of 6 and accepts
-- an oracle estimate of 5.
theorem c6_gas_price_ceiling_witness :
    Cfx.processTransaction ⟨1030, 0, 0, true, false, ["0xa"], 5⟩
      ⟨6, 10, 0, some (64, 21000)⟩
      ⟨.undefined, .undefined, .undefined, .undefined, .undefined, .undefined⟩ =
      .thrownErr (Cfx.gasPriceExceededError 6 5)
    ∧ ∃ payload,
        Cfx.processTransaction ⟨1030, 0, 0, true, false, ["0xa"], 5⟩
          ⟨5, 10, 0, some (64, 21000)⟩
          ⟨.undefined, .undefined, .undefined, .undefined, .undefined, .undefined⟩ = .submitted payload := by
  constructor
  · exact (c6_gas_price_ceiling ⟨1030, 0, 0, true, false, ["0xa"], 5⟩
      ⟨6, 10, 0, some (64, 21000)⟩
      ⟨.undefined, .undefined, .undefined, .undefined, .undefined, .undefined⟩ rfl).1 (by decide)
  · exact (c6_gas_price_ceiling ⟨1030, 0, 0, true, false, ["0xa"], 5⟩
      ⟨5, 10, 0, some (64, 21000)⟩
      ⟨.undefined, .undefined, .undefined, .undefined, .undefined, .undefined⟩ rfl).2 (by decide) 64 21000 rfl

/-- C9: on the epoch-chain backend with self-estimation enabled, whenever
the oracle estimate passes the ceiling check the gas price placed in the
submitted payload is exactly ten times the oracle estimate (the decimal
digit 0 appended to the estimate before hex encoding), the ceiling
comparison having been made on the unmultiplied estimate. -/
theorem c9_tenfold_gas_price (st : Cfx.State) (env : Cfx.Env)
    (params : Cfx.TxParams) (hEst : st.estimateGasPrice = true)
    (hle : env.oracleGasPrice ≤ st.defaultGasPrice)
    (sc gl : Int) (hest : env.estimation = some (sc, gl)) :
    ∃ payload, Cfx.processTransaction st env params = .submitted payload
      ∧ payload.gasPrice = .str ("0x" ++ toHex (env.oracleGasPrice * 10)) := by
  unfold Cfx.processTransaction
  rw [hEst, hest]
  simp [not_lt.mpr hle, Cfx.to0x, Cfx.jsToStringRadix16]

-- Witness for C9: with ceiling 5 an oracle estimate of 5 passes the
-- check, yet the submitted gas price is 0x32 = 50, ten times the
-- estimate and ten times the ceiling.
theorem c9_tenfold_gas_price_witness :
    (∃ payload,
        Cfx.processTransaction ⟨1030, 0, 0, true, false, ["0xa"], 5⟩
          ⟨5, 10, 0, some (64, 21000)⟩
          ⟨.undefined, .undefined, .undefined, .undefined, .undefined, .undefined⟩ = .submitted payload
        ∧ payload.gasPrice = .str ("0x" ++ toHex (5 * 10)))
    ∧ toHex (5 * 10) = "32"
    ∧ (5 : Int) < 5 * 10 := by
  refine ⟨?_, by decide, by decide⟩
  exact c9_tenfold_gas_price ⟨1030, 0, 0, true, false, ["0xa"], 5⟩
    ⟨5, 10, 0, some (64, 21000)⟩
    ⟨.undefined, .undefined, .undefined, .undefined, .undefined, .undefined⟩ rfl (by decide) 64 21000 rfl

/-- C5 (amended): on the epoch-chain backend every address outside
`getAccounts()` fails with `NoSigningKey` (code -32000, reason naming the
address) and the signing oracle is never consulted; on the claim-chain
backend the signer lookup behind `sendTransaction` is case-insensitive:
it fails with the same `NoSigningKey` exactly when the address matches no
signer address up to lowercasing, again without consulting the
nonce/submission oracles. -/
theorem c5_unknown_address_no_signing_key (st : Cfx.State)
    (sign sign' : JsVal → JsVal → JsVal) (address : String) (message : JsVal)
    (h : address ∉ Cfx.getAccounts st) :
    (Cfx.processEthSignMessage st sign address message =
       .error (Cfx.noSigningKeyError address)
     ∧ Cfx.processEthSignMessage st sign address message =
       Cfx.processEthSignMessage st sign' address message)
    ∧ ((Cfx.noSigningKeyError address).get "reason" =
       .str ("No private key available as to sign messages from \x27"
         ++ address ++ "\x27")
     ∧ (((Cfx.noSigningKeyError address).get "body").get "error").get "code" =
       .num (-32000))
    ∧ ∀ (rst : Reef.State) (nextNonce nextNonce' : String → JsVal)
        (submit submit' : Reef.Tx → String) (params : Reef.TxParams),
        (∀ a ∈ rst.signers, jsToLowerCase a ≠ jsToLowerCase (params.from.getD "")) →
        (Reef.sendTransaction rst nextNonce submit params =
           .error (Cfx.noSigningKeyError (params.from.getD ""))
         ∧ Reef.sendTransaction rst nextNonce submit params =
           Reef.sendTransaction rst nextNonce' submit' params) := by
  refine ⟨?_, ⟨rfl, rfl⟩, ?_⟩
  · unfold Cfx.processEthSignMessage
    rw [if_neg h]
    exact ⟨rfl, (if_neg h).symm⟩
  · intro rst nextNonce nextNonce' submit submit' params hnone
    have hfind : rst.signers.find?
        (fun a => jsToLowerCase a == jsToLowerCase (params.from.getD "")) = none := by
      rw [List.find?_eq_none]
      intro a ha
      simpa using hnone a ha
    have hsig : Reef.getSignerFromEvmAddress rst.signers (params.from.getD "") =
        .error (Cfx.noSigningKeyError (params.from.getD "")) := by
      unfold Reef.getSignerFromEvmAddress
      rw [hfind]
    constructor <;> simp [Reef.sendTransaction, Reef.composeTransaction, hsig]

-- Witness for C5: the one-account epoch-chain wallet refuses to sign for
-- the absent address 0xdead, and the one-signer claim-chain wallet
-- refuses to send for it.
theorem c5_unknown_address_no_signing_key_witness :
    Cfx.processEthSignMessage ⟨1030, 0, 0, false, false, ["0xa"], 0⟩
      (fun _ _ => .null) "0xdead" (.str "msg") =
      .error (Cfx.noSigningKeyError "0xdead")
    ∧ Reef.sendTransaction ⟨["0xAB"], ["0xAB"], "", 1⟩ (fun _ => .num 0)
        (fun _ => "0xhash") ⟨some "0xdead", none, none, none, none, none, none⟩ =
      .error (Cfx.noSigningKeyError "0xdead") := by
  constructor
  · exact ((c5_unknown_address_no_signing_key ⟨1030, 0, 0, false, false, ["0xa"], 0⟩
      (fun _ _ => .null) (fun _ _ => .null) "0xdead" (.str "msg") (by decide)).1).1
  · exact ((c5_unknown_address_no_signing_key ⟨1030, 0, 0, false, false, ["0xa"], 0⟩
      (fun _ _ => .null) (fun _ _ => .null) "0xdead" (.str "msg") (by decide)).2.2
      ⟨["0xAB"], ["0xAB"], "", 1⟩ (fun _ => .num 0) (fun _ => .num 0)
      (fun _ => "0xhash") (fun _ => "0xhash")
      ⟨some "0xdead", none, none, none, none, none, none⟩ (by decide)).1

-- Counterexample for C5 as stated: on the claim-chain backend, the
-- address "0xab" is not in the wallet's getAccounts() list ["0xAB"], yet
-- the signer lookup matches case-insensitively and sendTransaction
-- reaches the submission call instead of failing with NoSigningKey.
theorem c5_counterexample :
    Reef.sendTransaction ⟨["0xAB"], ["0xAB"], "", 1⟩ (fun _ => .num 0)
        (fun _ => "0xhash") ⟨some "0xab", none, none, none, none, none, none⟩ =
      .ok (.str "0xhash")
    ∧ "0xab" ∉ Reef.getAccounts ⟨["0xAB"], ["0xAB"], "", 1⟩ :=
  ⟨rfl, by decide⟩

/-- C10: on the epoch-chain backend `getAccount` returns `undefined` for
every address (its body has no return statement); hence for every address
present in `getAccounts()` `processEthSignMessage` resolves to
`undefined` rather than a signature, and the router's serialized response
for that outcome carries neither a result nor an error field. -/
theorem c10_sign_resolves_undefined (st : Cfx.State)
    (sign : JsVal → JsVal → JsVal) (address : String) (message : JsVal)
    (req : RpcRequest) (h : address ∈ Cfx.getAccounts st) :
    Cfx.getAccount st address = .undefined
    ∧ Cfx.processEthSignMessage st sign address message = .ok .undefined
    ∧ ∃ r, wireResponse req (.success .undefined) = some r
        ∧ r.hasOwn "result" = false ∧ r.hasOwn "error" = false := by
  refine ⟨rfl, ?_, ?_⟩
  · unfold Cfx.processEthSignMessage
    rw [if_pos h]
    rfl
  · refine ⟨jsonRoundtrip (.obj [("jsonrpc", req.jsonrpc), ("id", req.id),
      ("result", .undefined)]), rfl, ?_, ?_⟩
    · simp [jsonRoundtrip, JsVal.hasOwn, hasKey_roundtripObj]
    · simp [jsonRoundtrip, JsVal.hasOwn, hasKey_roundtripObj]

-- Witness for C10: the known address 0xa yields an undefined signature
-- and a wire response with neither field.
theorem c10_sign_resolves_undefined_witness :
    Cfx.processEthSignMessage ⟨1030, 0, 0, false, false, ["0xa"], 0⟩
      (fun _ _ => .str "sig") "0xa" (.str "msg") = .ok .undefined
    ∧ ∃ r, wireResponse ⟨.num 1, .str "2.0", "eth_sign", some []⟩
        (.success .undefined) = some r
        ∧ r.hasOwn "result" = false ∧ r.hasOwn "error" = false := by
  have h := c10_sign_resolves_undefined ⟨1030, 0, 0, false, false, ["0xa"], 0⟩
    (fun _ _ => .str "sig") "0xa" (.str "msg")
    ⟨.num 1, .str "2.0", "eth_sign", some []⟩ (by decide)
  exact ⟨h.2.1, h.2.2⟩

/-- C1: an intercepted method (eth_accounts, eth_sendTransaction,
eth_sign) is answered by the bound wallet handler invoked with the
request's params spread positionally plus the socket context appended,
independently of the upstream oracle; a method outside both the
intercepted set and the `Object.prototype` key set is forwarded with its
method and params unmodified and a successful upstream result is returned
unmodified inside the envelope.  The final conjunct exhibits the failing
input of the claim as stated: `"toString" in handlers` is true through
the prototype chain, so that request is not forwarded. -/
theorem c1_dispatch_routing (req : RpcRequest) (socket : JsVal)
    (h : String → List JsVal → Outcome) (p : String → Outcome)
    (u u' : String → Option (List JsVal) → Outcome) :
    (req.method ∈ interceptedMethods →
       dispatch req socket h p u =
         buildResponse req (h req.method (req.params.getD [] ++ [socket]))
       ∧ dispatch req socket h p u = dispatch req socket h p u')
    ∧ (req.method ∉ interceptedMethods → req.method ∉ objectPrototypeKeys →
       dispatch req socket h p u = buildResponse req (u req.method req.params)
       ∧ ∀ v, u req.method req.params = .success v →
           dispatch req socket h p u =
             some (.obj [("jsonrpc", req.jsonrpc), ("id", req.id), ("result", v)]))
    ∧ route ⟨.num 1, .str "2.0", "toString", some []⟩ socket =
        .protoInvoked "toString" := by
  refine ⟨fun hm => ?_, fun hm hp => ?_, rfl⟩
  · unfold dispatch route
    rw [if_pos hm]
    exact ⟨rfl, rfl⟩
  · unfold dispatch route
    rw [if_neg hm, if_neg hp]
    refine ⟨rfl, fun v hv => ?_⟩
    show buildResponse req (u req.method req.params) = _
    rw [hv]
    rfl

-- Witness for C1: the eth_accounts request goes to the bound handler
-- (with the socket appended) and the eth_getBalance request goes
-- upstream with its params untouched.
theorem c1_dispatch_routing_witness :
    dispatch ⟨.num 1, .str "2.0", "eth_accounts", some []⟩ (.obj [])
        (fun _ _ => .success (.arr [.str "0xa"])) (fun _ => .success .null)
        (fun _ _ => .success (.str "0xcafe")) =
      buildResponse ⟨.num 1, .str "2.0", "eth_accounts", some []⟩
        (.success (.arr [.str "0xa"]))
    ∧ dispatch ⟨.num 2, .str "2.0", "eth_getBalance", some [.str "0xa"]⟩ (.obj [])
        (fun _ _ => .success (.arr [.str "0xa"])) (fun _ => .success .null)
        (fun _ _ => .success (.str "0xcafe")) =
      some (.obj [("jsonrpc", .str "2.0"), ("id", .num 2), ("result", .str "0xcafe")]) := by
  constructor
  · exact ((c1_dispatch_routing ⟨.num 1, .str "2.0", "eth_accounts", some []⟩ (.obj [])
      (fun _ _ => .success (.arr [.str "0xa"])) (fun _ => .success .null)
      (fun _ _ => .success (.str "0xcafe")) (fun _ _ => .success (.str "0xcafe"))).1
      (by decide)).1
  · exact ((c1_dispatch_routing ⟨.num 2, .str "2.0", "eth_getBalance", some [.str "0xa"]⟩
      (.obj []) (fun _ _ => .success (.arr [.str "0xa"])) (fun _ => .success .null)
      (fun _ _ => .success (.str "0xcafe")) (fun _ _ => .success (.str "0xcafe"))).2.1
      (by decide) (by decide)).2 (.str "0xcafe") rfl

/-- C2 (amended): every response the router produces echoes the request's
id and jsonrpc verbatim and never carries both result and error on the
wire; a success outcome with a defined value yields exactly the result
field and a thrown plain object with a falsy code yields exactly the
error field.  (A success value of undefined leaves neither field on the
wire, and a thrown null/undefined escapes the catch block, producing no
response at all.) -/
theorem c2_response_envelope (req : RpcRequest) (o : Outcome) :
    (∀ r, buildResponse req o = some r →
        r.get "jsonrpc" = req.jsonrpc ∧ r.get "id" = req.id
        ∧ ¬((jsonRoundtrip r).hasOwn "result" = true
            ∧ (jsonRoundtrip r).hasOwn "error" = true))
    ∧ (∀ v, o = .success v → v ≠ .undefined →
        ∃ r, buildResponse req o = some r
          ∧ (jsonRoundtrip r).hasOwn "result" = true
          ∧ (jsonRoundtrip r).hasOwn "error" = false)
    ∧ (∀ fs, o = .thrown (.obj fs) → truthy (getField fs "code") = false →
        ∃ r, buildResponse req o = some r
          ∧ (jsonRoundtrip r).hasOwn "error" = true
          ∧ (jsonRoundtrip r).hasOwn "result" = false)
    ∧ buildResponse req (.thrown .null) = none
    ∧ buildResponse req (.thrown .undefined) = none := by
  refine ⟨?_, ?_, ?_, rfl, rfl⟩
  · intro r hr
    cases o with
    | success v =>
      obtain rfl : JsVal.obj [("jsonrpc", req.jsonrpc), ("id", req.id), ("result", v)] = r :=
        Option.some.inj hr
      refine ⟨rfl, rfl, ?_⟩
      rintro ⟨-, herr⟩
      simp [jsonRoundtrip, JsVal.hasOwn, hasKey_roundtripObj] at herr
    | thrown e =>
      obtain ⟨errv, -, rfl⟩ := Option.map_eq_some'.mp hr
      refine ⟨rfl, rfl, ?_⟩
      rintro ⟨hres, -⟩
      simp [jsonRoundtrip, JsVal.hasOwn, hasKey_roundtripObj] at hres
  · rintro v rfl hv
    refine ⟨.obj [("jsonrpc", req.jsonrpc), ("id", req.id), ("result", v)], rfl, ?_, ?_⟩
    · simp [jsonRoundtrip, JsVal.hasOwn, hasKey_roundtripObj, hv]
    · simp [jsonRoundtrip, JsVal.hasOwn, hasKey_roundtripObj]
  · rintro fs rfl hcode
    have hn := normalizeError_rewrap_obj fs hcode
    refine ⟨.obj [("jsonrpc", req.jsonrpc), ("id", req.id),
      ("error", .obj (("code", JsVal.num (-32015)) ::
        ("message", JsVal.str (if truthy (getField fs "data") then "Execution error"
                               else (jsonStr (.obj fs)).getD "undefined")) ::
        (match getField fs "data" with
         | .undefined => []
         | d => [("data", jsonRoundtrip d)])))], ?_, ?_, ?_⟩
    · show (normalizeError (.obj fs)).map _ = _
      rw [hn]
      rfl
    · simp [jsonRoundtrip, JsVal.hasOwn, hasKey_roundtripObj]
    · simp [jsonRoundtrip, JsVal.hasOwn, hasKey_roundtripObj]

-- Witness for C2: a defined success value yields exactly the result
-- field, and a thrown object without a code yields exactly the error
-- field.
theorem c2_response_envelope_witness :
    (∃ r, buildResponse ⟨.num 1, .str "2.0", "eth_accounts", some []⟩
        (.success (.arr [.str "0xa"])) = some r
        ∧ (jsonRoundtrip r).hasOwn "result" = true
        ∧ (jsonRoundtrip r).hasOwn "error" = false)
    ∧ (∃ r, buildResponse ⟨.num 1, .str "2.0", "eth_accounts", some []⟩
        (.thrown (.obj [("reason", .str "boom")])) = some r
        ∧ (jsonRoundtrip r).hasOwn "error" = true
        ∧ (jsonRoundtrip r).hasOwn "result" = false) := by
  constructor
  · exact (c2_response_envelope ⟨.num 1, .str "2.0", "eth_accounts", some []⟩
      (.success (.arr [.str "0xa"]))).2.1 (.arr [.str "0xa"]) rfl (by decide)
  · exact (c2_response_envelope ⟨.num 1, .str "2.0", "eth_accounts", some []⟩
      (.thrown (.obj [("reason", .str "boom")]))).2.2.1 [("reason", .str "boom")]
      rfl (by decide)

-- Counterexample for C2 as stated: a handler that resolves to undefined
-- (which processEthSignMessage does for every known address) produces a
-- wire response with neither a result nor an error field.
theorem c2_counterexample :
    wireResponse ⟨.num 1, .str "2.0", "eth_sign", some []⟩ (.success .undefined) =
      some (.obj [("jsonrpc", .str "2.0"), ("id", .num 1)])
    ∧ (JsVal.obj [("jsonrpc", .str "2.0"), ("id", .num 1)]).hasOwn "result" = false
    ∧ (JsVal.obj [("jsonrpc", .str "2.0"), ("id", .num 1)]).hasOwn "error" = false :=
  ⟨rfl, rfl, rfl⟩

/-- C3 (amended): a thrown value with no (falsy) `code` is wrapped as
`{code: -32015, message: "Execution error"` when it carries data, else
the JSON-stringified exception, `data:` the thrown value's data`}`; a
thrown value already carrying a (truthy) `code` keeps that code but not
its message — the message is rebuilt as the quoted string coercion of
`reason`, else `error.reason`, else the exception itself (so
`{code: -32000, message: "x"}` comes back with message
`"[object Object]"`, not `"x"`); and when the thrown value's own `body`
is a string that does not parse as JSON the response error falls back to
the fixed `-32700` "Invalid JSON response" text. -/
theorem c3_error_normalizer (fs : List (String × JsVal)) (s : String) (c : Int) :
    (truthy (getField fs "code") = false →
      normalizeError (.obj fs) =
        some (.obj (("code", JsVal.num (-32015)) ::
          ("message", JsVal.str (if truthy (getField fs "data") then "Execution error"
                                 else (jsonStr (.obj fs)).getD "undefined")) ::
          (match getField fs "data" with
           | .undefined => []
           | d => [("data", jsonRoundtrip d)]))))
    ∧ (getField fs "code" = .num c → c ≠ 0 →
       getField fs "body" = .undefined → getField fs "error" = .undefined →
       getField fs "data" = .undefined → getField fs "reason" = .undefined →
       normalizeError (.obj fs) =
         some (.obj [("code", .num c), ("message", .str "\"[object Object]\"")]))
    ∧ (getField fs "code" = .num c → c ≠ 0 →
       getField fs "body" = .str s → s ≠ "" → jsonParse s = none →
       normalizeError (.obj fs) = some fallbackInvalidJson) := by
  refine ⟨fun h => normalizeError_rewrap_obj fs h, ?_, ?_⟩
  · intro h1 h2 h3 h4 h5 h6
    simp [normalizeError, JsVal.get, truthy, h1, h2, h3, h4, h5, h6,
      jsToString, parseBody, jsonRoundtrip, roundtripObj, getField]
  · intro h1 h2 h3 h4 h5
    simp [normalizeError, JsVal.get, truthy, h1, h2, h3, h4, h5, parseBody]

-- Witness for C3: a thrown {code: 5, body: "boom"} hits the -32700
-- fallback (its body does not parse as JSON), and a thrown
-- {code: -32000, message: "x"} keeps its code while the message is
-- rebuilt.
theorem c3_error_normalizer_witness :
    normalizeError (.obj [("code", .num 5), ("body", .str "boom")]) =
      some fallbackInvalidJson
    ∧ normalizeError (.obj [("code", .num (-32000)), ("message", .str "x")]) =
      some (.obj [("code", .num (-32000)), ("message", .str "\"[object Object]\"")]) := by
  constructor
  · exact (c3_error_normalizer [("code", .num 5), ("body", .str "boom")] "boom" 5).2.2
      rfl (by decide) rfl (by decide) rfl
  · exact (c3_error_normalizer [("code", .num (-32000)), ("message", .str "x")] ""
      (-32000)).2.1 rfl (by decide) rfl rfl rfl rfl

-- Counterexample for C3 as stated: the thrown value {code: -32000,
-- message: "x"} does not pass through unchanged — the normalizer keeps
-- the code but replaces the message with the quoted string coercion of
-- the whole exception.
theorem c3_counterexample :
    normalizeError (.obj [("code", .num (-32000)), ("message", .str "x")]) =
      some (.obj [("code", .num (-32000)), ("message", .str "\"[object Object]\"")])
    ∧ normalizeError (.obj [("code", .num (-32000)), ("message", .str "x")]) ≠
      some (.obj [("code", .num (-32000)), ("message", .str "x")]) := by
  constructor <;>
    simp [normalizeError, JsVal.get, getField, truthy, jsToString, parseBody,
      jsonRoundtrip, roundtripObj]
